import Mathlib

/-!
Verification of the Crochet framework (roblox-ts) against its
natural-language specification.

The development shallowly embeds the TypeScript sources:

* `src/core.ts` — `FunctionDefinition`, `EventDefinition`,
  `AttributeDefinition`, `CrochetCore` (channel registration, binding,
  invocation, parameter/return verification, attributes);
* `src/server.ts` — `CrochetServerImplementation` (service registration,
  remote channels, `start`);
* `src/client.ts` — `CrochetClientImplementation` (controller
  registration, memoized `start`);
* the tag-component manager `registerTagComponentForTag` (present in the
  `core.ts` revision that ships the tag manager).

Runtime values are modelled by a small closed universe `Value`; the
Roblox instance tree relevant to the library (the `Functions` and
`Events` folders) is modelled as lists of named children; JS `Map`s are
modelled as insertion-ordered association lists.  The cooperative
single-threaded scheduling of the host is modelled by delivering
heartbeat ticks and readiness notifications only between top-level
operations, which is exactly the observable behaviour of the Roblox
event loop for the fully synchronous code under study.
-/

namespace Crochet

/-- Runtime values exchanged through channels and attributes
(a small closed universe sufficient for the claims). -/
inductive Value where
  | vstr : String → Value
  | vnum : Int → Value
  | vbool : Bool → Value
  | vnil : Value
deriving DecidableEq, Repr, Inhabited

/-- Type of runtime type-guard predicates (`TypeCheck<T>` in `core.ts`). -/
abbrev TypeCheck := Value → Bool

/-- Guard accepting exactly strings (the `isString`-style validator). -/
def isString : TypeCheck := fun v =>
  match v with
  | .vstr _ => true
  | _ => false

/-- Guard accepting exactly numbers (the `isNumber`-style validator). -/
def isNumber : TypeCheck := fun v =>
  match v with
  | .vnum _ => true
  | _ => false

/-- Guard accepting exactly booleans (the `isBoolean`-style validator). -/
def isBoolean : TypeCheck := fun v =>
  match v with
  | .vbool _ => true
  | _ => false

/-- Lookup in an insertion-ordered association list (JS `Map.get`). -/
def mapGet {α : Type} [DecidableEq α] {β : Type} (m : List (α × β)) (k : α) : Option β :=
  (m.find? (fun p => decide (p.1 = k))).map (fun p => p.2)

/-- Update in an insertion-ordered association list (JS `Map.set`):
overwrite the entry if the key is present, otherwise append. -/
def mapSet {α : Type} [DecidableEq α] {β : Type} (m : List (α × β)) (k : α) (v : β) :
    List (α × β) :=
  if (mapGet m k).isSome then
    m.map (fun p => if p.1 = k then (k, v) else p)
  else
    m ++ [(k, v)]

/-- Deletion from an association list (JS `Map.delete`). -/
def mapErase {α : Type} [DecidableEq α] {β : Type} (m : List (α × β)) (k : α) :
    List (α × β) :=
  m.filter (fun p => decide (p.1 ≠ k))

/-- Error taxonomy of the specification; each case corresponds to one of
the `assert`s in the sources. -/
inductive CrochetError where
  | duplicateIdentifier
  | notFound
  | invalidState
deriving DecidableEq, Repr

/-- Declared data of a `FunctionDefinition` (identifier plus the optional
parameter and return type guards), from `core.ts`. -/
structure FunctionDefinition where
  functionIdentifier : String
  parameterTypeguards : Option (List TypeCheck)
  returnTypeGuard : Option TypeCheck

/-- Declared data of an `EventDefinition`, from `core.ts`. -/
structure EventDefinition where
  eventIdentifier : String
  parameterTypeguards : Option (List TypeCheck)

/-- Declared data of an `AttributeDefinition`, from `core.ts`. -/
structure AttributeDefinition where
  name : String
  typeCheck : Option TypeCheck

/-- Class of a channel object parented into one of the two folders
(`BindableFunction`/`RemoteFunction` under `Functions`,
`BindableEvent`/`RemoteEvent` under `Events`). -/
inductive ChildKind where
  | bindableFunction
  | remoteFunction
  | bindableEvent
  | remoteEvent
deriving DecidableEq, Repr

/-- State of `CrochetCore` (`core.ts`): the two containment folders,
modelled as ordered lists of named children, and the three type-guard
maps. -/
structure CrochetCoreState where
  functionFolder : List (String × ChildKind)
  eventFolder : List (String × ChildKind)
  functionParameterTypeGuards : List (String × List TypeCheck)
  functionReturnTypeGuard : List (String × TypeCheck)
  eventParameterTypeGuards : List (String × List TypeCheck)

/-- Fresh core state: both folders exist and are empty, as set up by the
server constructor; no guards stored. -/
def emptyCore : CrochetCoreState :=
  { functionFolder := []
    eventFolder := []
    functionParameterTypeGuards := []
    functionReturnTypeGuard := []
    eventParameterTypeGuards := [] }

/-- `Folder.FindFirstChild(name)` on a modelled folder. -/
def findFirstChild (folder : List (String × ChildKind)) (name : String) : Option ChildKind :=
  (folder.find? (fun c => decide (c.1 = name))).map (fun c => c.2)

/-- `CrochetCore.registerBindableFunction` (`core.ts` lines 116-128):
asserts that no child of the function folder already has the name
(`Duplicate function for name ...`), then creates the
`BindableFunction` and stores the optional guards. -/
def registerBindableFunction (st : CrochetCoreState) (fd : FunctionDefinition) :
    Except CrochetError CrochetCoreState :=
  let name := fd.functionIdentifier
  if (findFirstChild st.functionFolder name).isSome then
    .error .duplicateIdentifier
  else
    let st1 := { st with functionFolder := st.functionFolder ++ [(name, .bindableFunction)] }
    let st2 :=
      match fd.parameterTypeguards with
      | some gs =>
          { st1 with functionParameterTypeGuards := mapSet st1.functionParameterTypeGuards name gs }
      | none => st1
    let st3 :=
      match fd.returnTypeGuard with
      | some g =>
          { st2 with functionReturnTypeGuard := mapSet st2.functionReturnTypeGuard name g }
      | none => st2
    .ok st3

/-- `CrochetServerImplementation.registerRemoteFunction` (`server.ts`
lines 75-86): creates the `RemoteFunction` and stores the optional
guards.  Note: unlike `registerBindableFunction`, the source performs no
duplicate check and cannot fail. -/
def registerRemoteFunction (st : CrochetCoreState) (fd : FunctionDefinition) :
    CrochetCoreState :=
  let name := fd.functionIdentifier
  let st1 := { st with functionFolder := st.functionFolder ++ [(name, .remoteFunction)] }
  let st2 :=
    match fd.parameterTypeguards with
    | some gs =>
        { st1 with functionParameterTypeGuards := mapSet st1.functionParameterTypeGuards name gs }
    | none => st1
  match fd.returnTypeGuard with
  | some g => { st2 with functionReturnTypeGuard := mapSet st2.functionReturnTypeGuard name g }
  | none => st2

/-- `CrochetServerImplementation.registerRemoteEvent` (`server.ts` lines
154-162): creates the `RemoteEvent` and stores the optional parameter
guards; the source performs no duplicate check and cannot fail. -/
def registerRemoteEvent (st : CrochetCoreState) (ed : EventDefinition) : CrochetCoreState :=
  let name := ed.eventIdentifier
  let st1 := { st with eventFolder := st.eventFolder ++ [(name, .remoteEvent)] }
  match ed.parameterTypeguards with
  | some gs =>
      { st1 with eventParameterTypeGuards := mapSet st1.eventParameterTypeGuards name gs }
  | none => st1

/-- `CrochetCore.verifyFunctionParametersWithDefinition` (`core.ts` lines
191-209): if guards are stored for the identifier, the counts must match
exactly and each positional guard must accept its argument; with no
stored guards every argument list verifies. -/
def verifyFunctionParametersWithDefinition (st : CrochetCoreState) (params : List Value)
    (name : String) : Bool :=
  match mapGet st.functionParameterTypeGuards name with
  | none => true
  | some typeGuards =>
      if typeGuards.length ≠ params.length then
        false
      else
        (List.range typeGuards.length).all fun i =>
          (typeGuards.getD i (fun _ => true)) (params.getD i .vnil)

/-- `CrochetCore.verifyFunctionReturnTypeWithDefinition` (`core.ts` lines
211-221). -/
def verifyFunctionReturnTypeWithDefinition (st : CrochetCoreState) (returnResult : Value)
    (name : String) : Bool :=
  match mapGet st.functionReturnTypeGuard name with
  | none => true
  | some typeGuard => typeGuard returnResult

/-- Outcome of invoking the function returned by `getBindableFunction`
for a bound function.  The source raises both validation failures
through `assert`; the mismatch cases here record which check in
`verifyFunctionParametersWithDefinition` rejected, following the order
of the checks in the source (the count comparison runs first, the
positional guards second). -/
inductive InvokeResult where
  | success : Value → InvokeResult
  | arityMismatch
  | parameterTypeMismatch
  | returnTypeMismatch
  | notFound
deriving DecidableEq, Repr

/-- Classification of a failed parameter check, by the order of the
checks in `verifyFunctionParametersWithDefinition`: the length
comparison fires first (`arityMismatch`), a rejecting positional guard
second (`parameterTypeMismatch`).  Only meaningful when the boolean
check returned `false` (so guards are necessarily stored). -/
def classifyParameterFailure (st : CrochetCoreState) (params : List Value) (name : String) :
    InvokeResult :=
  match mapGet st.functionParameterTypeGuards name with
  | none => .parameterTypeMismatch
  | some typeGuards =>
      if typeGuards.length ≠ params.length then .arityMismatch else .parameterTypeMismatch

/-- Invocation of a bound `BindableFunction` through the wrapper returned
by `getBindableFunction` (`core.ts` lines 164-180) with the handler
installed by `bindBindableFunction` (`core.ts` lines 136-153).  The
wrapper verifies the parameters, the `OnInvoke` handler verifies them
again (same predicate), runs the binding, verifies the return value, and
the wrapper verifies the returned value once more; observably the
parameters are checked before the handler runs and the result after.
The second component counts how many times the bound handler executed,
making the handler's side effect observable. -/
def invokeBoundBindableFunction (st : CrochetCoreState) (name : String)
    (handler : List Value → Value) (params : List Value) : InvokeResult × Nat :=
  if (findFirstChild st.functionFolder name).isNone then
    (.notFound, 0)
  else if verifyFunctionParametersWithDefinition st params name then
    let result := handler params
    if verifyFunctionReturnTypeWithDefinition st result name then
      (.success result, 1)
    else
      (.returnTypeMismatch, 1)
  else
    (classifyParameterFailure st params name, 0)

/-- `CrochetCore.getAttribute` (`core.ts` lines 294-313), after resolving
the overload to an attribute name and an optional type-check function:
reads the raw attribute value; with a check present, an absent value or
an accepted value is returned as-is, a present rejected value throws;
with no check the raw value is returned.  Attribute storage of one
instance is modelled as an association list. -/
def getAttribute (attrs : List (String × Value)) (attributeName : String)
    (typeCheckFunction : Option TypeCheck) : Except String (Option Value) :=
  let attributeValue := mapGet attrs attributeName
  match typeCheckFunction with
  | some check =>
      match attributeValue with
      | none => .ok none
      | some v => if check v then .ok (some v) else .error "Attribute is the wrong type!"
  | none => .ok attributeValue

/-- Kind of a declared Definition (the specification's three kinds). -/
inductive DefKind where
  | function
  | event
  | attribute
deriving DecidableEq, Repr

/-- The process-wide identifier namespaces backing the Definition
constructors: `FunctionDefinition.functionDefinitionNames` and
`EventDefinition.eventDefinitionNames` (`core.ts`).  The
`AttributeDefinition` constructor keeps no such set. -/
structure DefinitionRegistry where
  functionDefinitionNames : List String
  eventDefinitionNames : List String
deriving DecidableEq, Repr

/-- Registry with no declared identifiers. -/
def emptyRegistry : DefinitionRegistry :=
  { functionDefinitionNames := [], eventDefinitionNames := [] }

/-- Declaring a Definition of the given kind: the `FunctionDefinition`
constructor (`core.ts` lines 48-62) asserts the identifier is not in its
static name set and adds it; the `EventDefinition` constructor (lines
72-85) does the same against its own set; the `AttributeDefinition`
constructor (lines 95-97) performs no check and touches no state. -/
def declare (reg : DefinitionRegistry) (k : DefKind) (id : String) :
    Except CrochetError DefinitionRegistry :=
  match k with
  | .function =>
      if id ∈ reg.functionDefinitionNames then
        .error .duplicateIdentifier
      else
        .ok { reg with functionDefinitionNames := reg.functionDefinitionNames ++ [id] }
  | .event =>
      if id ∈ reg.eventDefinitionNames then
        .error .duplicateIdentifier
      else
        .ok { reg with eventDefinitionNames := reg.eventDefinitionNames ++ [id] }
  | .attribute => .ok reg

/-- Core state with one `BindableFunction` named `"F"` already
registered, for the C2 scenario. -/
def c2State : CrochetCoreState :=
  { functionFolder := [("F", .bindableFunction)]
    eventFolder := []
    functionParameterTypeGuards := []
    functionReturnTypeGuard := []
    eventParameterTypeGuards := [] }

/-- Core state holding the function definition of claim C1: a
`BindableFunction` named `TestFunction` with parameter validators
`[isString, isNumber]` and no return validator. -/
def c1State : CrochetCoreState :=
  { functionFolder := [("TestFunction", .bindableFunction)]
    eventFolder := []
    functionParameterTypeGuards := [("TestFunction", [isString, isNumber])]
    functionReturnTypeGuard := []
    eventParameterTypeGuards := [] }

/-- Core state holding the function definition of claim C8: a
`BindableFunction` named `BoolFunction` with no parameter validators and
return validator `isBoolean`. -/
def c8State : CrochetCoreState :=
  { functionFolder := [("BoolFunction", .bindableFunction)]
    eventFolder := []
    functionParameterTypeGuards := []
    functionReturnTypeGuard := [("BoolFunction", isBoolean)]
    eventParameterTypeGuards := [] }

/-- State of one tag binding created by
`CrochetCore.registerTagComponentForTag` (tag-manager revision of
`core.ts`, lines 462-478): the `tagComponents` map from instance to the
component constructed for it.  Entities and components are identified by
numbers; `nextComponentId` makes each construction produce a fresh
component, `constructions` counts constructor runs, and `teardowns`
records the `onTagRemoved` calls in order (each naming the component
torn down). -/
structure TagBindingState where
  tagComponents : List (Nat × Nat)
  nextComponentId : Nat
  constructions : Nat
  teardowns : List Nat
deriving DecidableEq, Repr

/-- The local `bindToInstance` closure: construct
`new tagComponentConstructor(instance)` and `Map.set` it — note the
source constructs unconditionally, with no presence check. -/
def bindToInstance (st : TagBindingState) (instanceId : Nat) : TagBindingState :=
  { st with
    nextComponentId := st.nextComponentId + 1
    constructions := st.constructions + 1
    tagComponents := mapSet st.tagComponents instanceId st.nextComponentId }

/-- Fresh state of one tag binding: the empty `tagComponents` map
(`new Map<Instance, TagComponent>()`). -/
def emptyTagBinding : TagBindingState :=
  { tagComponents := [], nextComponentId := 0, constructions := 0, teardowns := [] }

/-- `registerTagComponentForTag`: connects the membership signals and
synchronously binds every instance currently holding the tag
(`CollectionService.GetTagged(tag).forEach(bindToInstance)`). -/
def registerTagComponentForTag (tagged : List Nat) : TagBindingState :=
  tagged.foldl bindToInstance emptyTagBinding

/-- Delivery of one `GetInstanceAddedSignal` notification: the connected
handler is `bindToInstance`. -/
def onInstanceAdded (st : TagBindingState) (instanceId : Nat) : TagBindingState :=
  bindToInstance st instanceId

/-- Delivery of one `GetInstanceRemovedSignal` notification: if the
instance is present in the map, call its `onTagRemoved` and delete it;
otherwise do nothing. -/
def onInstanceRemoved (st : TagBindingState) (instanceId : Nat) : TagBindingState :=
  match mapGet st.tagComponents instanceId with
  | some componentId =>
      { st with
        teardowns := st.teardowns ++ [componentId]
        tagComponents := mapErase st.tagComponents instanceId }
  | none => st

/-- Observable lifecycle events, labelled with the key of the
participating service or controller: `onInit` runs, `onStart` runs, one
`onHeartbeat` delivery, the publication of the channel folder
(`CrochetFolder.Parent = script.Parent`) and of the readiness marker
(the `Started` `BoolValue`). -/
inductive LifecycleEvent where
  | init : String → LifecycleEvent
  | start : String → LifecycleEvent
  | heartbeat : String → LifecycleEvent
  | publishFolder
  | publishStarted
deriving DecidableEq, Repr, Inhabited

/-- A service (or controller) constructor: its `tostring` rendering (the
registration key), an identity distinguishing different constructors
with equal renderings, and which of the optional lifecycle hooks
(`onInit` / `onStart` / `onHeartbeat`) the constructed instance exposes.
Constructing the singleton is deterministic, so the instance is
represented by the constructor value itself. -/
structure ServiceConstructor where
  render : String
  ctorId : Nat
  hasInit : Bool
  hasStart : Bool
  hasHeartbeat : Bool
deriving DecidableEq, Repr

/-- Lifecycle state of `CrochetServerImplementation` (`server.ts`): the
`services` map keyed by `tostring(constructor)`, the `starting` flag,
the heartbeat subscriptions made during `start()` (in subscription
order), whether the folder hierarchy and the `Started` marker have been
published, and the trace of observable lifecycle events.  The inherited
channel state (`CrochetCore`) is modelled separately by
`CrochetCoreState`; no claim needs both at once. -/
structure ServerState where
  services : List (String × ServiceConstructor)
  starting : Bool
  heartbeatConnections : List String
  folderPublished : Bool
  startedMarker : Bool
  trace : List LifecycleEvent

/-- The server as built by its constructor: no services, not starting. -/
def mkServerState : ServerState :=
  { services := []
    starting := false
    heartbeatConnections := []
    folderPublished := false
    startedMarker := false
    trace := [] }

/-- `registerService` (`server.ts` lines 47-58): asserts `!starting`
(`InvalidState`), asserts the `tostring` key is not yet in the map
(`DuplicateIdentifier`), constructs the singleton, stores it, and calls
its `onInit` immediately if the instance has one. -/
def registerService (st : ServerState) (c : ServiceConstructor) :
    Except CrochetError ServerState :=
  if st.starting then
    .error .invalidState
  else
    let serviceKey := c.render
    if (mapGet st.services serviceKey).isSome then
      .error .duplicateIdentifier
    else
      let st1 := { st with services := mapSet st.services serviceKey c }
      if c.hasInit then
        .ok { st1 with trace := st1.trace ++ [.init serviceKey] }
      else
        .ok st1

/-- `getService` (`server.ts` lines 69-73): asserts the `tostring` key is
registered (`NotFound`) and returns the stored singleton. -/
def getService (st : ServerState) (c : ServiceConstructor) :
    Except CrochetError ServiceConstructor :=
  match mapGet st.services c.render with
  | some inst => .ok inst
  | none => .error .notFound

/-- Body of the `forEach` inside `start()` (`server.ts` lines 208-215):
call the service's `onStart` if present, then subscribe its
`onHeartbeat` to the host tick signal if present. -/
def startService (st : ServerState) (entry : String × ServiceConstructor) : ServerState :=
  let st1 :=
    if entry.2.hasStart then { st with trace := st.trace ++ [.start entry.2.render] } else st
  if entry.2.hasHeartbeat then
    { st1 with heartbeatConnections := st1.heartbeatConnections ++ [entry.2.render] }
  else
    st1

/-- `start()` (`server.ts` lines 202-220): asserts `!starting`
(`InvalidState`), sets `starting`, publishes the channel folder, runs
the per-service loop, then publishes the `Started` readiness marker. -/
def startServer (st : ServerState) : Except CrochetError ServerState :=
  if st.starting then
    .error .invalidState
  else
    let st1 := { st with starting := true }
    let st2 := { st1 with
      folderPublished := true, trace := st1.trace ++ [LifecycleEvent.publishFolder] }
    let st3 := st2.services.foldl startService st2
    .ok { st3 with
      startedMarker := true, trace := st3.trace ++ [LifecycleEvent.publishStarted] }

/-- One host heartbeat tick: every connected subscription is invoked, in
subscription order.  The cooperative event loop delivers ticks only
between top-level operations, which this model reflects by making the
tick an explicit operation. -/
def serverTick (st : ServerState) : ServerState :=
  { st with trace := st.trace ++ st.heartbeatConnections.map LifecycleEvent.heartbeat }

/-- `n` host ticks in sequence. -/
def runTicks : Nat → ServerState → ServerState
  | 0, st => st
  | n + 1, st => runTicks n (serverTick st)

/-- The `onInit` event emitted by registering `c`, if any. -/
def initEvent (c : ServiceConstructor) : List LifecycleEvent :=
  if c.hasInit then [.init c.render] else []

/-- The `onStart` events emitted by the `start()` loop over the given
services, in map order. -/
def startEvents : List (String × ServiceConstructor) → List LifecycleEvent
  | [] => []
  | p :: rest => (if p.2.hasStart then [.start p.2.render] else []) ++ startEvents rest

/-- The heartbeat subscriptions made by the `start()` loop, in order. -/
def hbSubs : List (String × ServiceConstructor) → List String
  | [] => []
  | p :: rest => (if p.2.hasHeartbeat then [p.2.render] else []) ++ hbSubs rest

/-- The heartbeat events delivered by `n` ticks to the given
subscriptions. -/
def tickEvents : Nat → List String → List LifecycleEvent
  | 0, _ => []
  | n + 1, conns => conns.map LifecycleEvent.heartbeat ++ tickEvents n conns

def isInitEvent : LifecycleEvent → Bool
  | .init _ => true
  | _ => false

def isStartEvent : LifecycleEvent → Bool
  | .start _ => true
  | _ => false

def isHeartbeatEvent : LifecycleEvent → Bool
  | .heartbeat _ => true
  | _ => false

def isPublishStartedEvent : LifecycleEvent → Bool
  | .publishStarted => true
  | _ => false

/-- Every event satisfying `p` occurs strictly before every event
satisfying `q` in the trace `tr`. -/
def Precedes (tr : List LifecycleEvent) (p q : LifecycleEvent → Bool) : Prop :=
  ∀ i j, i < tr.length → j < tr.length →
    p (tr.getD i .publishFolder) = true → q (tr.getD j .publishFolder) = true → i < j

/-- Sequencing of fallible steps (the error short-circuiting implicit in
the sources' `assert`s aborting the whole call). -/
def exceptThen {α β : Type} (x : Except CrochetError α) (f : α → Except CrochetError β) :
    Except CrochetError β :=
  match x with
  | .error e => .error e
  | .ok v => f v

/-- The C3 scenario: a fresh server, services `A` then `B` registered in
that order, `start()`, then `n` host ticks. -/
def c3Run (A B : ServiceConstructor) (n : Nat) : Except CrochetError ServerState :=
  exceptThen (registerService mkServerState A) fun s1 =>
    exceptThen (registerService s1 B) fun s2 =>
      exceptThen (startServer s2) fun s3 =>
        .ok (runTicks n s3)

/-- Conclusion of claim C3: the scenario run succeeds, every `onInit`
event precedes every `onStart` event, every `onStart` event precedes
every heartbeat delivery, the readiness marker publication comes after
every `onStart` event, and the readiness marker is indeed published. -/
def ServerLifecycleOrdered (A B : ServiceConstructor) (n : Nat) : Prop :=
  ∃ st, c3Run A B n = Except.ok st
    ∧ Precedes st.trace isInitEvent isStartEvent
    ∧ Precedes st.trace isStartEvent isHeartbeatEvent
    ∧ Precedes st.trace isStartEvent isPublishStartedEvent
    ∧ LifecycleEvent.publishStarted ∈ st.trace

/-- The concrete service `A` of the C3 witness: all three hooks. -/
def svcA : ServiceConstructor :=
  { render := "A", ctorId := 0, hasInit := true, hasStart := true, hasHeartbeat := true }

/-- The concrete service `B` of the C3 witness: all three hooks. -/
def svcB : ServiceConstructor :=
  { render := "B", ctorId := 1, hasInit := true, hasStart := true, hasHeartbeat := true }

/-- First of the two same-rendering constructors of the C9 witness. -/
def svcS0 : ServiceConstructor :=
  { render := "S", ctorId := 0, hasInit := false, hasStart := false, hasHeartbeat := false }

/-- Second of the two same-rendering constructors of the C9 witness:
distinct from the first (`ctorId` 1) but with the same `tostring`
rendering `"S"`. -/
def svcS1 : ServiceConstructor :=
  { render := "S", ctorId := 1, hasInit := false, hasStart := false, hasHeartbeat := false }

/-- Controller constructors have exactly the shape of service
constructors (a `tostring` rendering, an identity, and the optional
hooks), so the same structure models both. -/
abbrev ControllerConstructor := ServiceConstructor

/-- Lifecycle state of `CrochetClientImplementation` (`client.ts`): the
`controllers` map keyed by `tostring(constructor)`, the memoized
`startPromise` (identified by a promise id), the queue of deferred
startup tasks created by `Promise.defer` and not yet run, the heartbeat
subscriptions, the promises resolved so far, and the trace.  Promise
ids are allocated from `nextPromiseId`. -/
structure ClientState where
  controllers : List (String × ControllerConstructor)
  startPromise : Option Nat
  nextPromiseId : Nat
  pendingStartTasks : List Nat
  heartbeatConnections : List String
  resolved : List Nat
  trace : List LifecycleEvent

/-- The client as built by its constructor: no controllers, no start
promise. -/
def mkClientState : ClientState :=
  { controllers := []
    startPromise := none
    nextPromiseId := 0
    pendingStartTasks := []
    heartbeatConnections := []
    resolved := []
    trace := [] }

/-- `registerController` (`client.ts` lines 81-95): asserts
`startPromise === undefined` (`InvalidState`), asserts the `tostring`
key is not yet registered (`DuplicateIdentifier`), constructs the
singleton, stores it, and calls its `onInit` immediately if present. -/
def registerController (st : ClientState) (c : ControllerConstructor) :
    Except CrochetError ClientState :=
  if st.startPromise.isSome then
    .error .invalidState
  else
    let controllerKey := c.render
    if (mapGet st.controllers controllerKey).isSome then
      .error .duplicateIdentifier
    else
      let st1 := { st with controllers := mapSet st.controllers controllerKey c }
      if c.hasInit then
        .ok { st1 with trace := st1.trace ++ [.init controllerKey] }
      else
        .ok st1

/-- `getController` (`client.ts` lines 117-121). -/
def getController (st : ClientState) (c : ControllerConstructor) :
    Except CrochetError ControllerConstructor :=
  match mapGet st.controllers c.render with
  | some inst => .ok inst
  | none => .error .notFound

/-- `start()` on the client (`client.ts` lines 48-69): if `startPromise`
is undefined, allocate a fresh promise and enqueue (via `Promise.defer`)
the single deferred startup task; either way return the memoized
promise.  The deferred body itself runs later, when the host scheduler
dispatches it after the readiness marker is observed. -/
def clientStart (st : ClientState) : Nat × ClientState :=
  match st.startPromise with
  | some p => (p, st)
  | none =>
      let p := st.nextPromiseId
      (p, { st with
        startPromise := some p
        nextPromiseId := p + 1
        pendingStartTasks := st.pendingStartTasks ++ [p] })

/-- `k + 1` consecutive calls of `start()`, returning the last call's
result. -/
def clientStartN : Nat → ClientState → Nat × ClientState
  | 0, st => clientStart st
  | k + 1, st => clientStartN k (clientStart st).2

/-- Body of the per-controller loop inside the deferred startup task
(`client.ts` lines 53-62): call `onStart` if present, then subscribe
`onHeartbeat` if present. -/
def startController (st : ClientState) (entry : String × ControllerConstructor) :
    ClientState :=
  let st1 :=
    if entry.2.hasStart then { st with trace := st.trace ++ [.start entry.2.render] } else st
  if entry.2.hasHeartbeat then
    { st1 with heartbeatConnections := st1.heartbeatConnections ++ [entry.2.render] }
  else
    st1

/-- The deferred startup task for promise `p`: after
`WaitForChild('Started')` returns (readiness observed), run the
controller loop, then `resolve()`. -/
def clientStartupBody (st : ClientState) (p : Nat) : ClientState :=
  let st1 := st.controllers.foldl startController st
  { st1 with resolved := st1.resolved ++ [p] }

/-- Observation of the server's readiness marker: the host scheduler
dispatches every pending deferred startup task, in order, and clears the
queue. -/
def deliverReadiness (st : ClientState) : ClientState :=
  st.pendingStartTasks.foldl clientStartupBody { st with pendingStartTasks := [] }

/-- The concrete client state of the C4 witness: two controllers with
all hooks, `start()` not yet called. -/
def cwState : ClientState :=
  { controllers := [("A", svcA), ("B", svcB)]
    startPromise := none
    nextPromiseId := 0
    pendingStartTasks := []
    heartbeatConnections := []
    resolved := []
    trace := [] }

/-- A server on which `start()` has already been called. -/
def ssStarted : ServerState := { mkServerState with starting := true }

/-- A server holding a service registered under the key `"S"`. -/
def ssWithS : ServerState := { mkServerState with services := [("S", svcS0)] }

/-- A client on which `start()` has already been called. -/
def csStarted : ClientState := { mkClientState with startPromise := some 0 }

/-- A client holding a controller registered under the key `"S"`. -/
def csWithS : ClientState := { mkClientState with controllers := [("S", svcS0)] }

/-- C6 counterexample: declaring the Attribute Definition `"x"` twice
succeeds both times — the second declaration returns the unchanged
registry instead of failing with `DuplicateIdentifier`, because the
`AttributeDefinition` constructor keeps no name set.  (The first
declaration leaves the registry unchanged, so the second declaration is
the literally repeated call.) -/
theorem c6_counterexample :
    declare emptyRegistry .attribute "x" = .ok emptyRegistry
      ∧ declare emptyRegistry .attribute "x" ≠ .error .duplicateIdentifier :=
  ⟨rfl, fun h => nomatch h⟩

/-- C6 amended: identifier namespaces are per-kind for the Function and
Event kinds and those two kinds reject re-declaration, but Attribute
declarations are never checked: with `id` fresh for both checked kinds,
declaring `(Function, id)` then `(Function, id)` fails the second time
with `DuplicateIdentifier`; declaring `(Event, id)` afterwards succeeds
(per-kind namespaces) and a second `(Event, id)` fails; declaring
`(Attribute, id)` succeeds any number of times. -/
theorem c6_per_kind_namespaces_except_attribute (reg : DefinitionRegistry) (id : String)
    (hf : id ∉ reg.functionDefinitionNames) (he : id ∉ reg.eventDefinitionNames) :
    ∃ reg1 reg2,
      declare reg .function id = .ok reg1
        ∧ declare reg1 .function id = .error .duplicateIdentifier
        ∧ declare reg1 .event id = .ok reg2
        ∧ declare reg2 .event id = .error .duplicateIdentifier
        ∧ declare reg2 .function id = .error .duplicateIdentifier
        ∧ declare reg2 .attribute id = .ok reg2
        ∧ declare reg2 .attribute id = .ok reg2 := by
  refine ⟨{ reg with functionDefinitionNames := reg.functionDefinitionNames ++ [id] },
    { functionDefinitionNames := reg.functionDefinitionNames ++ [id]
      eventDefinitionNames := reg.eventDefinitionNames ++ [id] },
    ?_, ?_, ?_, ?_, ?_, ?_, ?_⟩ <;>
    simp [declare, hf, he]

/-- Witness for C6 at the empty registry and identifier `"Ident"`. -/
theorem c6_per_kind_namespaces_except_attribute_witness :
    "Ident" ∉ emptyRegistry.functionDefinitionNames
      ∧ "Ident" ∉ emptyRegistry.eventDefinitionNames
      ∧ ∃ reg1 reg2,
          declare emptyRegistry .function "Ident" = .ok reg1
            ∧ declare reg1 .function "Ident" = .error .duplicateIdentifier
            ∧ declare reg1 .event "Ident" = .ok reg2
            ∧ declare reg2 .event "Ident" = .error .duplicateIdentifier
            ∧ declare reg2 .function "Ident" = .error .duplicateIdentifier
            ∧ declare reg2 .attribute "Ident" = .ok reg2
            ∧ declare reg2 .attribute "Ident" = .ok reg2 :=
  ⟨by simp [emptyRegistry], by simp [emptyRegistry],
    c6_per_kind_namespaces_except_attribute emptyRegistry "Ident" (by simp [emptyRegistry])
      (by simp [emptyRegistry])⟩

/-- The C2 state is reachable via `registerBindableFunction` from a fresh
core. -/
theorem c2State_reachable :
    registerBindableFunction emptyCore
      { functionIdentifier := "F", parameterTypeguards := none, returnTypeGuard := none }
      = .ok c2State := by
  rfl

/-- C2 counterexample: with a handle for identifier `"F"` already
present, `registerRemoteFunction` does not fail — it creates a second
backing handle, so the function folder ends up with two children named
`"F"` (the claim says the second registration fails with
`DuplicateIdentifier` and no second handle is created). -/
theorem c2_counterexample :
    ((registerRemoteFunction c2State
        { functionIdentifier := "F", parameterTypeguards := none,
          returnTypeGuard := none }).functionFolder.countP
      (fun c => decide (c.1 = "F"))) = 2 := by
  rfl

/-- C2 amended: only the bindable-function registration path checks for
duplicates.  With a handle for the identifier already present,
`registerBindableFunction` fails with `DuplicateIdentifier` (and, the
failure being raised before any mutation, no second handle is created),
while `registerRemoteFunction` and `registerRemoteEvent` perform no
duplicate check: each unconditionally appends one more backing handle
under its folder. -/
theorem c2_only_bindable_function_checks_duplicates (st : CrochetCoreState)
    (fd : FunctionDefinition) (ed : EventDefinition)
    (h : (findFirstChild st.functionFolder fd.functionIdentifier).isSome) :
    registerBindableFunction st fd = .error .duplicateIdentifier
      ∧ (registerRemoteFunction st fd).functionFolder
          = st.functionFolder ++ [(fd.functionIdentifier, .remoteFunction)]
      ∧ (registerRemoteEvent st ed).eventFolder
          = st.eventFolder ++ [(ed.eventIdentifier, .remoteEvent)] := by
  refine ⟨?_, ?_, ?_⟩
  · simp [registerBindableFunction, h]
  · rcases fd with ⟨nm, pg, rg⟩
    cases pg <;> cases rg <;> rfl
  · rcases ed with ⟨nm, pg⟩
    cases pg <;> rfl

/-- Witness for C2's amended statement at the concrete `c2State` and
definitions both named `"F"`. -/
theorem c2_only_bindable_function_checks_duplicates_witness :
    (findFirstChild c2State.functionFolder "F").isSome
      ∧ (registerBindableFunction c2State
            { functionIdentifier := "F", parameterTypeguards := none, returnTypeGuard := none }
            = .error .duplicateIdentifier
          ∧ (registerRemoteFunction c2State
              { functionIdentifier := "F", parameterTypeguards := none,
                returnTypeGuard := none }).functionFolder
            = c2State.functionFolder ++ [("F", .remoteFunction)]
          ∧ (registerRemoteEvent c2State
              { eventIdentifier := "F", parameterTypeguards := none }).eventFolder
            = c2State.eventFolder ++ [("F", .remoteEvent)]) :=
  ⟨rfl,
    c2_only_bindable_function_checks_duplicates c2State
      { functionIdentifier := "F", parameterTypeguards := none, returnTypeGuard := none }
      { eventIdentifier := "F", parameterTypeguards := none } rfl⟩

/-- The C1 state is produced by `registerBindableFunction` from a fresh
core, so the scenario state is reachable by the source operations. -/
theorem c1State_reachable :
    registerBindableFunction emptyCore
      { functionIdentifier := "TestFunction"
        parameterTypeguards := some [isString, isNumber]
        returnTypeGuard := none } = .ok c1State := by
  rfl

/-- The C8 state is produced by `registerBindableFunction` from a fresh
core. -/
theorem c8State_reachable :
    registerBindableFunction emptyCore
      { functionIdentifier := "BoolFunction"
        parameterTypeguards := none
        returnTypeGuard := some isBoolean } = .ok c8State := by
  rfl

/-- C1: with parameter validators `[isString, isNumber]` and any bound
handler, invoking with `("a", 1)` succeeds and runs the handler exactly
once; invoking with the single argument `("a")` fails the count check
(`ArityMismatch`) and the handler never runs; invoking with
`("a", "b")` fails the positional guard (`ParameterTypeMismatch`) and
the handler never runs. -/
theorem c1_parameter_validation_gates_handler (handler : List Value → Value) :
    invokeBoundBindableFunction c1State "TestFunction" handler [.vstr "a", .vnum 1]
        = (.success (handler [.vstr "a", .vnum 1]), 1)
      ∧ invokeBoundBindableFunction c1State "TestFunction" handler [.vstr "a"]
        = (.arityMismatch, 0)
      ∧ invokeBoundBindableFunction c1State "TestFunction" handler [.vstr "a", .vstr "b"]
        = (.parameterTypeMismatch, 0) := by
  refine ⟨?_, ?_, ?_⟩ <;> rfl

/-- C8: with return validator `isBoolean`, any bound handler whose result
on the given (validator-free) parameters is not a boolean makes the
invocation fail with `ReturnTypeMismatch`, and the handler has executed
exactly once before the failure. -/
theorem c8_return_validation_after_handler (handler : List Value → Value)
    (params : List Value) (h : isBoolean (handler params) = false) :
    invokeBoundBindableFunction c8State "BoolFunction" handler params
      = (.returnTypeMismatch, 1) := by
  have hret : verifyFunctionReturnTypeWithDefinition c8State (handler params) "BoolFunction"
      = false := by
    simp [verifyFunctionReturnTypeWithDefinition, c8State, mapGet, h]
  have h1 : (findFirstChild c8State.functionFolder "BoolFunction").isNone = false := rfl
  have h2 : verifyFunctionParametersWithDefinition c8State params "BoolFunction" = true := rfl
  simp [invokeBoundBindableFunction, h1, h2, hret]

/-- Witness for C8 at a concrete handler returning the string `"x"` on
the empty parameter list. -/
theorem c8_return_validation_after_handler_witness :
    isBoolean ((fun _ : List Value => Value.vstr "x") []) = false
      ∧ invokeBoundBindableFunction c8State "BoolFunction"
          (fun _ : List Value => Value.vstr "x") [] = (.returnTypeMismatch, 1) :=
  ⟨rfl, c8_return_validation_after_handler (fun _ : List Value => Value.vstr "x") [] rfl⟩

/-- C10: a `getAttribute` lookup carrying a type check returns the absent
value (`undefined`) without raising an error whenever the attribute is
not set on the instance; the check is only ever applied to present
values. -/
theorem c10_absent_attribute_never_fails (attrs : List (String × Value))
    (attributeName : String) (check : TypeCheck)
    (h : mapGet attrs attributeName = none) :
    getAttribute attrs attributeName (some check) = .ok none := by
  unfold getAttribute
  rw [h]

/-- Witness for C10: looking up the attribute `"Score"` with the
`isNumber` check on an instance that has only `"Name"` set returns
`undefined` without error. -/
theorem c10_absent_attribute_never_fails_witness :
    mapGet [("Name", Value.vstr "n")] "Score" = none
      ∧ getAttribute [("Name", Value.vstr "n")] "Score" (some isNumber) = .ok none :=
  ⟨rfl, c10_absent_attribute_never_fails [("Name", Value.vstr "n")] "Score" isNumber rfl⟩

theorem mapGet_nil {α : Type} [DecidableEq α] {β : Type} (k : α) :
    mapGet ([] : List (α × β)) k = none := rfl

theorem mapGet_cons {α : Type} [DecidableEq α] {β : Type} (p : α × β) (m : List (α × β))
    (k : α) :
    mapGet (p :: m) k = if p.1 = k then some p.2 else mapGet m k := by
  by_cases h : p.1 = k <;> simp [mapGet, List.find?, h]

theorem mapGet_map_overwrite {α : Type} [DecidableEq α] {β : Type} (m : List (α × β))
    (k k' : α) (v : β) (h : k' ≠ k) :
    mapGet (m.map fun p => if p.1 = k then (k, v) else p) k' = mapGet m k' := by
  induction m with
  | nil => rfl
  | cons p m ih =>
      by_cases hp : p.1 = k
      · simp [hp, mapGet_cons, Ne.symm h, ih]
      · simp [hp, mapGet_cons, ih]

theorem mapGet_mapSet_self {α : Type} [DecidableEq α] {β : Type} (m : List (α × β)) (k : α)
    (v : β) : mapGet (mapSet m k v) k = some v := by
  unfold mapSet
  split
  · rename_i hsome
    induction m with
    | nil => simp [mapGet] at hsome
    | cons p m ih =>
        by_cases hp : p.1 = k
        · simp [hp, mapGet_cons]
        · rw [mapGet_cons, if_neg hp] at hsome
          rw [List.map_cons, if_neg hp, mapGet_cons, if_neg hp]
          exact ih hsome
  · rename_i hnone
    induction m with
    | nil => simp [mapGet_cons]
    | cons p m ih =>
        rw [mapGet_cons] at hnone
        by_cases hp : p.1 = k
        · rw [if_pos hp] at hnone
          simp at hnone
        · rw [if_neg hp] at hnone
          rw [List.cons_append, mapGet_cons, if_neg hp]
          exact ih hnone

theorem mapGet_mapSet_other {α : Type} [DecidableEq α] {β : Type} (m : List (α × β))
    (k k' : α) (v : β) (h : k' ≠ k) : mapGet (mapSet m k v) k' = mapGet m k' := by
  unfold mapSet
  split
  · exact mapGet_map_overwrite m k k' v h
  · rename_i hnone
    induction m with
    | nil => simp [mapGet_cons, mapGet_nil, Ne.symm h]
    | cons p m ih =>
        rw [mapGet_cons] at hnone
        by_cases hpk : p.1 = k
        · rw [if_pos hpk] at hnone
          simp at hnone
        · rw [if_neg hpk] at hnone
          rw [List.cons_append, mapGet_cons, mapGet_cons]
          by_cases hp' : p.1 = k'
          · rw [if_pos hp', if_pos hp']
          · rw [if_neg hp', if_neg hp']
            exact ih hnone

theorem mapErase_cons_self {α : Type} [DecidableEq α] {β : Type} (p : α × β)
    (m : List (α × β)) (k : α) (hp : p.1 = k) : mapErase (p :: m) k = mapErase m k := by
  simp [mapErase, List.filter_cons, hp]

theorem mapErase_cons_other {α : Type} [DecidableEq α] {β : Type} (p : α × β)
    (m : List (α × β)) (k : α) (hp : ¬p.1 = k) :
    mapErase (p :: m) k = p :: mapErase m k := by
  simp [mapErase, List.filter_cons, hp]

theorem mapGet_mapErase_self {α : Type} [DecidableEq α] {β : Type} (m : List (α × β))
    (k : α) : mapGet (mapErase m k) k = none := by
  induction m with
  | nil => rfl
  | cons p m ih =>
      by_cases hp : p.1 = k
      · rw [mapErase_cons_self p m k hp]
        exact ih
      · rw [mapErase_cons_other p m k hp, mapGet_cons, if_neg hp]
        exact ih

theorem bindToInstance_constructions (st : TagBindingState) (i : Nat) :
    (bindToInstance st i).constructions = st.constructions + 1 := rfl

theorem bindToInstance_teardowns (st : TagBindingState) (i : Nat) :
    (bindToInstance st i).teardowns = st.teardowns := rfl

theorem foldl_bindToInstance_constructions (l : List Nat) (st : TagBindingState) :
    (l.foldl bindToInstance st).constructions = st.constructions + l.length := by
  induction l generalizing st with
  | nil => rfl
  | cons i l ih =>
      rw [List.foldl_cons, ih, bindToInstance_constructions, List.length_cons]
      omega

theorem foldl_bindToInstance_teardowns (l : List Nat) (st : TagBindingState) :
    (l.foldl bindToInstance st).teardowns = st.teardowns := by
  induction l generalizing st with
  | nil => rfl
  | cons i l ih => rw [List.foldl_cons, ih, bindToInstance_teardowns]

theorem foldl_bindToInstance_isSome (l : List Nat) (st : TagBindingState) (i : Nat)
    (h : (mapGet st.tagComponents i).isSome ∨ i ∈ l) :
    (mapGet (l.foldl bindToInstance st).tagComponents i).isSome := by
  induction l generalizing st with
  | nil =>
      rcases h with h | h
      · exact h
      · cases h
  | cons j l ih =>
      rw [List.foldl_cons]
      apply ih
      by_cases hj : i = j
      · subst hj
        left
        simp [bindToInstance, mapGet_mapSet_self]
      · rcases h with h | h
        · left
          simpa [bindToInstance, mapGet_mapSet_other _ _ _ _ hj] using h
        · rcases List.mem_cons.mp h with h | h
          · exact absurd h hj
          · right; exact h

theorem foldl_bindToInstance_not_mem (l : List Nat) (st : TagBindingState) (i : Nat)
    (h : i ∉ l) :
    mapGet (l.foldl bindToInstance st).tagComponents i = mapGet st.tagComponents i := by
  induction l generalizing st with
  | nil => rfl
  | cons j l ih =>
      rw [List.foldl_cons, ih _ (fun hm => h (List.mem_cons_of_mem j hm))]
      exact mapGet_mapSet_other _ _ _ _ (fun hij => h (hij ▸ List.mem_cons_self j l))

theorem registerTagComponentForTag_constructions (tagged : List Nat) :
    (registerTagComponentForTag tagged).constructions = tagged.length := by
  have h := foldl_bindToInstance_constructions tagged emptyTagBinding
  simpa [registerTagComponentForTag, emptyTagBinding] using h

theorem registerTagComponentForTag_teardowns (tagged : List Nat) :
    (registerTagComponentForTag tagged).teardowns = [] := by
  have h := foldl_bindToInstance_teardowns tagged emptyTagBinding
  simpa [registerTagComponentForTag, emptyTagBinding] using h

theorem registerTagComponentForTag_isSome (tagged : List Nat) (e : Nat) (he : e ∈ tagged) :
    (mapGet (registerTagComponentForTag tagged).tagComponents e).isSome := by
  have h := foldl_bindToInstance_isSome tagged emptyTagBinding e (Or.inr he)
  simpa [registerTagComponentForTag] using h

theorem registerTagComponentForTag_not_mem (tagged : List Nat) (f : Nat) (hf : f ∉ tagged) :
    mapGet (registerTagComponentForTag tagged).tagComponents f = none := by
  have h := foldl_bindToInstance_not_mem tagged emptyTagBinding f hf
  simpa [registerTagComponentForTag, emptyTagBinding, mapGet] using h

/-- C5 counterexample: after `registerTagComponentForTag` has bound the
already-tagged entity `1` (one construction, component `0` in the map),
delivering a membership-add for the same entity is not a no-op — the
handler constructs a second component (`constructions = 2`) and the map
entry is replaced by the new component `1`.  The claim says the add
would be skipped with no second construction. -/
theorem c5_counterexample :
    (onInstanceAdded (registerTagComponentForTag [1]) 1).constructions = 2
      ∧ mapGet (registerTagComponentForTag [1]).tagComponents 1 = some 0
      ∧ mapGet (onInstanceAdded (registerTagComponentForTag [1]) 1).tagComponents 1
          = some 1 := by
  refine ⟨rfl, rfl, rfl⟩

/-- C5 amended: for a tag binding registered while `tagged` entities hold
the tag, every tagged entity synchronously gets a component and exactly
one constructor run happens per tagged entity; a membership-add for an
entity already present is NOT a no-op — it constructs again and
replaces the map entry (this is where the original claim fails); a
membership-remove for a present entity invokes its teardown hook exactly
once and erases it; a membership-remove for an absent entity is a no-op,
so removing the tag twice invokes the teardown only once. -/
theorem c5_tag_component_lifecycle (tagged : List Nat) (e f : Nat)
    (he : e ∈ tagged) (hf : f ∉ tagged) :
    ((mapGet (registerTagComponentForTag tagged).tagComponents e).isSome
      ∧ (registerTagComponentForTag tagged).constructions = tagged.length
      ∧ (onInstanceAdded (registerTagComponentForTag tagged) e).constructions
          = tagged.length + 1
      ∧ (∃ cid,
          mapGet (registerTagComponentForTag tagged).tagComponents e = some cid
            ∧ (onInstanceRemoved (registerTagComponentForTag tagged) e).teardowns = [cid]
            ∧ mapGet
                (onInstanceRemoved (registerTagComponentForTag tagged) e).tagComponents e
                = none)
      ∧ (onInstanceRemoved (onInstanceRemoved (registerTagComponentForTag tagged) e) e).teardowns.length
          = 1
      ∧ onInstanceRemoved (registerTagComponentForTag tagged) f
          = registerTagComponentForTag tagged) := by
  have hsome : (mapGet (registerTagComponentForTag tagged).tagComponents e).isSome :=
    registerTagComponentForTag_isSome tagged e he
  obtain ⟨cid, hcid⟩ := Option.isSome_iff_exists.mp hsome
  have htd : (registerTagComponentForTag tagged).teardowns = [] :=
    registerTagComponentForTag_teardowns tagged
  have hrem : onInstanceRemoved (registerTagComponentForTag tagged) e
      = { registerTagComponentForTag tagged with
          teardowns := [cid]
          tagComponents := mapErase (registerTagComponentForTag tagged).tagComponents e } := by
    rw [onInstanceRemoved, hcid, htd]
    simp
  refine ⟨hsome, ?_, ?_, ⟨cid, hcid, ?_, ?_⟩, ?_, ?_⟩
  · exact registerTagComponentForTag_constructions tagged
  · rw [onInstanceAdded, bindToInstance_constructions,
      registerTagComponentForTag_constructions tagged]
  · rw [hrem]
  · rw [hrem]
    exact mapGet_mapErase_self _ e
  · rw [hrem, onInstanceRemoved]
    simp [mapGet_mapErase_self]
  · rw [onInstanceRemoved, registerTagComponentForTag_not_mem tagged f hf]

/-- Witness for C5's amended statement: three entities `1, 2, 3` tagged
at registration time, scenario entity `1`, absent entity `4`. -/
theorem c5_tag_component_lifecycle_witness :
    (1 ∈ [1, 2, 3] ∧ 4 ∉ [1, 2, 3])
      ∧ ((mapGet (registerTagComponentForTag [1, 2, 3]).tagComponents 1).isSome
          ∧ (registerTagComponentForTag [1, 2, 3]).constructions = [1, 2, 3].length
          ∧ (onInstanceAdded (registerTagComponentForTag [1, 2, 3]) 1).constructions
              = [1, 2, 3].length + 1
          ∧ (∃ cid,
              mapGet (registerTagComponentForTag [1, 2, 3]).tagComponents 1 = some cid
                ∧ (onInstanceRemoved (registerTagComponentForTag [1, 2, 3]) 1).teardowns
                    = [cid]
                ∧ mapGet
                    (onInstanceRemoved (registerTagComponentForTag [1, 2, 3]) 1).tagComponents
                    1 = none)
          ∧ (onInstanceRemoved (onInstanceRemoved (registerTagComponentForTag [1, 2, 3]) 1)
              1).teardowns.length = 1
          ∧ onInstanceRemoved (registerTagComponentForTag [1, 2, 3]) 4
              = registerTagComponentForTag [1, 2, 3]) :=
  ⟨⟨by decide, by decide⟩,
    c5_tag_component_lifecycle [1, 2, 3] 1 4 (by decide) (by decide)⟩

theorem getD_mem_of_lt {tr : List LifecycleEvent} {n : Nat} {d : LifecycleEvent}
    (h : n < tr.length) : tr.getD n d ∈ tr := by
  rw [List.getD_eq_getElem tr d h]
  exact List.getElem_mem h

/-- If no event of the prefix satisfies `q` and no event of the suffix
satisfies `p`, then every `p`-event precedes every `q`-event. -/
theorem precedes_of_split (tr t1 t2 : List LifecycleEvent) (p q : LifecycleEvent → Bool)
    (htr : tr = t1 ++ t2) (h1 : ∀ e ∈ t1, q e = false) (h2 : ∀ e ∈ t2, p e = false) :
    Precedes tr p q := by
  subst htr
  intro i j hi hj hp hq
  have hilt : i < t1.length := by
    by_contra hge
    have hge' : t1.length ≤ i := Nat.le_of_not_lt hge
    rw [List.getD_append_right t1 t2 _ i hge'] at hp
    have hmem : t2.getD (i - t1.length) .publishFolder ∈ t2 := by
      apply getD_mem_of_lt
      rw [List.length_append] at hi
      omega
    rw [h2 _ hmem] at hp
    exact Bool.false_ne_true hp
  have hjge : t1.length ≤ j := by
    by_contra hlt
    have hlt' : j < t1.length := Nat.lt_of_not_le hlt
    rw [List.getD_append t1 t2 _ j hlt'] at hq
    rw [h1 _ (getD_mem_of_lt hlt')] at hq
    exact Bool.false_ne_true hq
  omega

theorem mem_initEvent {c : ServiceConstructor} {e : LifecycleEvent} (h : e ∈ initEvent c) :
    ∃ r, e = .init r := by
  unfold initEvent at h
  split at h
  · rcases List.mem_singleton.mp h with rfl
    exact ⟨c.render, rfl⟩
  · cases h

theorem mem_startEvents {svcs : List (String × ServiceConstructor)} {e : LifecycleEvent}
    (h : e ∈ startEvents svcs) : ∃ r, e = .start r := by
  induction svcs with
  | nil => cases h
  | cons p rest ih =>
      rw [startEvents] at h
      rcases List.mem_append.mp h with h | h
      · split at h
        · rcases List.mem_singleton.mp h with rfl
          exact ⟨p.2.render, rfl⟩
        · cases h
      · exact ih h

theorem mem_tickEvents {n : Nat} {conns : List String} {e : LifecycleEvent}
    (h : e ∈ tickEvents n conns) : ∃ r, e = .heartbeat r := by
  induction n with
  | zero => cases h
  | succ n ih =>
      rw [tickEvents] at h
      rcases List.mem_append.mp h with h | h
      · obtain ⟨r, _, rfl⟩ := List.mem_map.mp h
        exact ⟨r, rfl⟩
      · exact ih h

theorem mapSet_of_not_mem {α : Type} [DecidableEq α] {β : Type} (m : List (α × β)) (k : α)
    (v : β) (h : mapGet m k = none) : mapSet m k v = m ++ [(k, v)] := by
  unfold mapSet
  rw [h]
  rfl

theorem exceptThen_ok {α β : Type} (a : α) (f : α → Except CrochetError β) :
    exceptThen (.ok a) f = f a := rfl

theorem registerService_ok (st : ServerState) (c : ServiceConstructor)
    (h1 : st.starting = false) (h2 : mapGet st.services c.render = none) :
    registerService st c
      = .ok { st with
              services := mapSet st.services c.render c
              trace := st.trace ++ initEvent c } := by
  unfold registerService
  simp only [h1, Bool.false_eq_true, if_false, h2, Option.isSome_none]
  cases hc : c.hasInit <;> simp [initEvent, hc]

theorem foldl_startService_eq (svcs : List (String × ServiceConstructor))
    (st : ServerState) :
    svcs.foldl startService st
      = { st with
          trace := st.trace ++ startEvents svcs
          heartbeatConnections := st.heartbeatConnections ++ hbSubs svcs } := by
  induction svcs generalizing st with
  | nil => simp [startEvents, hbSubs]
  | cons p rest ih =>
      rw [List.foldl_cons, ih]
      cases hs : p.2.hasStart <;> cases hh : p.2.hasHeartbeat <;>
        simp [startService, startEvents, hbSubs, hs, hh]

theorem startServer_ok (st : ServerState) (h1 : st.starting = false) :
    startServer st
      = .ok { st with
              starting := true
              folderPublished := true
              startedMarker := true
              trace := st.trace ++ [LifecycleEvent.publishFolder] ++ startEvents st.services
                ++ [LifecycleEvent.publishStarted]
              heartbeatConnections := st.heartbeatConnections ++ hbSubs st.services } := by
  unfold startServer
  simp only [h1, Bool.false_eq_true, if_false]
  rw [foldl_startService_eq]

theorem runTicks_eq (n : Nat) (st : ServerState) :
    runTicks n st
      = { st with trace := st.trace ++ tickEvents n st.heartbeatConnections } := by
  induction n generalizing st with
  | zero => simp [runTicks, tickEvents]
  | succ n ih =>
      rw [runTicks, ih]
      simp [serverTick, tickEvents, List.append_assoc]

/-- C3: for services `A` then `B` registered in that order on a fresh
server and any number of subsequent host ticks, both `onInit` hooks run
before any `onStart` hook, both `onStart` hooks run before any
`onHeartbeat` delivery, and the `Started` readiness marker is published
only after all `onStart` hooks have completed. -/
theorem c3_server_start_ordering (A B : ServiceConstructor) (n : Nat)
    (hAB : A.render ≠ B.render) : ServerLifecycleOrdered A B n := by
  have hmg : mapGet [(A.render, A)] B.render = none := by
    rw [mapGet_cons]
    simp [hAB, mapGet_nil]
  have e1 : registerService mkServerState A
      = .ok { services := [(A.render, A)]
              starting := false
              heartbeatConnections := []
              folderPublished := false
              startedMarker := false
              trace := initEvent A } :=
    registerService_ok mkServerState A rfl rfl
  have e2 : registerService
      { services := [(A.render, A)]
        starting := false
        heartbeatConnections := []
        folderPublished := false
        startedMarker := false
        trace := initEvent A } B
      = .ok { services := [(A.render, A), (B.render, B)]
              starting := false
              heartbeatConnections := []
              folderPublished := false
              startedMarker := false
              trace := initEvent A ++ initEvent B } := by
    have h := registerService_ok
      { services := [(A.render, A)]
        starting := false
        heartbeatConnections := []
        folderPublished := false
        startedMarker := false
        trace := initEvent A } B rfl hmg
    simp only [] at h
    rw [mapSet_of_not_mem _ _ _ hmg] at h
    exact h
  have e3 : startServer
      { services := [(A.render, A), (B.render, B)]
        starting := false
        heartbeatConnections := []
        folderPublished := false
        startedMarker := false
        trace := initEvent A ++ initEvent B }
      = .ok { services := [(A.render, A), (B.render, B)]
              starting := true
              heartbeatConnections := hbSubs [(A.render, A), (B.render, B)]
              folderPublished := true
              startedMarker := true
              trace := initEvent A ++ initEvent B ++ [LifecycleEvent.publishFolder]
                ++ startEvents [(A.render, A), (B.render, B)]
                ++ [LifecycleEvent.publishStarted] } :=
    startServer_ok _ rfl
  have e4 : runTicks n
      { services := [(A.render, A), (B.render, B)]
        starting := true
        heartbeatConnections := hbSubs [(A.render, A), (B.render, B)]
        folderPublished := true
        startedMarker := true
        trace := initEvent A ++ initEvent B ++ [LifecycleEvent.publishFolder]
          ++ startEvents [(A.render, A), (B.render, B)]
          ++ [LifecycleEvent.publishStarted] }
      = { services := [(A.render, A), (B.render, B)]
          starting := true
          heartbeatConnections := hbSubs [(A.render, A), (B.render, B)]
          folderPublished := true
          startedMarker := true
          trace := (initEvent A ++ initEvent B ++ [LifecycleEvent.publishFolder]
              ++ startEvents [(A.render, A), (B.render, B)]
              ++ [LifecycleEvent.publishStarted])
            ++ tickEvents n (hbSubs [(A.render, A), (B.render, B)]) } :=
    runTicks_eq n _
  have hrun : c3Run A B n
      = .ok { services := [(A.render, A), (B.render, B)]
              starting := true
              heartbeatConnections := hbSubs [(A.render, A), (B.render, B)]
              folderPublished := true
              startedMarker := true
              trace := (initEvent A ++ initEvent B ++ [LifecycleEvent.publishFolder]
                  ++ startEvents [(A.render, A), (B.render, B)]
                  ++ [LifecycleEvent.publishStarted])
                ++ tickEvents n (hbSubs [(A.render, A), (B.render, B)]) } := by
    simp only [c3Run, e1, e2, e3, e4, exceptThen_ok]
  refine ⟨_, hrun, ?_, ?_, ?_, ?_⟩
  · refine precedes_of_split _ (initEvent A ++ initEvent B)
      ([LifecycleEvent.publishFolder] ++ startEvents [(A.render, A), (B.render, B)]
        ++ [LifecycleEvent.publishStarted]
        ++ tickEvents n (hbSubs [(A.render, A), (B.render, B)]))
      _ _ (by simp [List.append_assoc]) ?_ ?_
    · intro e he
      rcases List.mem_append.mp he with he | he <;>
        · obtain ⟨r, rfl⟩ := mem_initEvent he
          rfl
    · intro e he
      rcases List.mem_append.mp he with he | he
      · rcases List.mem_append.mp he with he | he
        · rcases List.mem_append.mp he with he | he
          · rcases List.mem_singleton.mp he with rfl
            rfl
          · obtain ⟨r, rfl⟩ := mem_startEvents he
            rfl
        · rcases List.mem_singleton.mp he with rfl
          rfl
      · obtain ⟨r, rfl⟩ := mem_tickEvents he
        rfl
  · refine precedes_of_split _
      (initEvent A ++ initEvent B ++ [LifecycleEvent.publishFolder]
        ++ startEvents [(A.render, A), (B.render, B)] ++ [LifecycleEvent.publishStarted])
      (tickEvents n (hbSubs [(A.render, A), (B.render, B)]))
      _ _ (by simp [List.append_assoc]) ?_ ?_
    · intro e he
      rcases List.mem_append.mp he with he | he
      · rcases List.mem_append.mp he with he | he
        · rcases List.mem_append.mp he with he | he
          · rcases List.mem_append.mp he with he | he <;>
              · obtain ⟨r, rfl⟩ := mem_initEvent he
                rfl
          · rcases List.mem_singleton.mp he with rfl
            rfl
        · obtain ⟨r, rfl⟩ := mem_startEvents he
          rfl
      · rcases List.mem_singleton.mp he with rfl
        rfl
    · intro e he
      obtain ⟨r, rfl⟩ := mem_tickEvents he
      rfl
  · refine precedes_of_split _
      (initEvent A ++ initEvent B ++ [LifecycleEvent.publishFolder]
        ++ startEvents [(A.render, A), (B.render, B)])
      ([LifecycleEvent.publishStarted]
        ++ tickEvents n (hbSubs [(A.render, A), (B.render, B)]))
      _ _ (by simp [List.append_assoc]) ?_ ?_
    · intro e he
      rcases List.mem_append.mp he with he | he
      · rcases List.mem_append.mp he with he | he
        · rcases List.mem_append.mp he with he | he <;>
            · obtain ⟨r, rfl⟩ := mem_initEvent he
              rfl
        · rcases List.mem_singleton.mp he with rfl
          rfl
      · obtain ⟨r, rfl⟩ := mem_startEvents he
        rfl
    · intro e he
      rcases List.mem_append.mp he with he | he
      · rcases List.mem_singleton.mp he with rfl
        rfl
      · obtain ⟨r, rfl⟩ := mem_tickEvents he
        rfl
  · simp

/-- Witness for C3 at two concrete services with all three hooks and one
tick. -/
theorem c3_server_start_ordering_witness :
    svcA.render ≠ svcB.render ∧ ServerLifecycleOrdered svcA svcB 1 :=
  ⟨by decide, c3_server_start_ordering svcA svcB 1 (by decide)⟩


theorem clientStart_of_some (st : ClientState) (p : Nat) (h : st.startPromise = some p) :
    clientStart st = (p, st) := by
  unfold clientStart
  rw [h]

theorem clientStart_of_none (st : ClientState) (h : st.startPromise = none) :
    clientStart st
      = (st.nextPromiseId,
          { st with
            startPromise := some st.nextPromiseId
            nextPromiseId := st.nextPromiseId + 1
            pendingStartTasks := st.pendingStartTasks ++ [st.nextPromiseId] }) := by
  unfold clientStart
  rw [h]

theorem clientStart_idem (st : ClientState) :
    clientStart (clientStart st).2 = clientStart st := by
  cases h : st.startPromise with
  | some p =>
      rw [clientStart_of_some st p h]
      exact clientStart_of_some st p h
  | none =>
      rw [clientStart_of_none st h]
      exact clientStart_of_some _ _ rfl

theorem clientStartN_eq (k : Nat) (st : ClientState) :
    clientStartN k st = clientStart st := by
  induction k generalizing st with
  | zero => rfl
  | succ k ih =>
      show clientStartN k (clientStart st).2 = clientStart st
      rw [ih, clientStart_idem]

theorem foldl_startController_eq (ctrls : List (String × ControllerConstructor))
    (st : ClientState) :
    ctrls.foldl startController st
      = { st with
          trace := st.trace ++ startEvents ctrls
          heartbeatConnections := st.heartbeatConnections ++ hbSubs ctrls } := by
  induction ctrls generalizing st with
  | nil => simp [startEvents, hbSubs]
  | cons p rest ih =>
      rw [List.foldl_cons, ih]
      cases hs : p.2.hasStart <;> cases hh : p.2.hasHeartbeat <;>
        simp [startController, startEvents, hbSubs, hs, hh]

theorem deliverReadiness_single (st : ClientState) (p : Nat)
    (h : st.pendingStartTasks = [p]) :
    deliverReadiness st
      = { st with
          pendingStartTasks := []
          trace := st.trace ++ startEvents st.controllers
          heartbeatConnections := st.heartbeatConnections ++ hbSubs st.controllers
          resolved := st.resolved ++ [p] } := by
  unfold deliverReadiness
  rw [h, List.foldl_cons, List.foldl_nil]
  unfold clientStartupBody
  rw [foldl_startController_eq]

/-- C4: with `startPromise` unset and no pending task or resolution, any
number `k + 1` of `start()` calls returns the one promise allocated by
the first call; exactly one deferred startup task is enqueued in total;
once readiness is observed, that promise resolves exactly once, every
registered controller's `onStart` runs exactly once in total, every
per-tick hook is subscribed exactly once, and further `start()` calls
still return the same already-resolved promise without re-running the
sequence. -/
theorem c4_client_start_idempotent (st : ClientState) (k : Nat)
    (h0 : st.startPromise = none) (hq : st.pendingStartTasks = [])
    (hr : st.resolved = []) :
    clientStartN k st = clientStart st
      ∧ (clientStart st).2.pendingStartTasks = [(clientStart st).1]
      ∧ (deliverReadiness (clientStart st).2).resolved = [(clientStart st).1]
      ∧ (deliverReadiness (clientStart st).2).trace
          = st.trace ++ startEvents st.controllers
      ∧ (deliverReadiness (clientStart st).2).heartbeatConnections
          = st.heartbeatConnections ++ hbSubs st.controllers
      ∧ clientStart (deliverReadiness (clientStart st).2)
          = ((clientStart st).1, deliverReadiness (clientStart st).2) := by
  have hstart := clientStart_of_none st h0
  have hpend : (clientStart st).2.pendingStartTasks = [(clientStart st).1] := by
    rw [hstart]
    simp [hq]
  have hdel := deliverReadiness_single (clientStart st).2 (clientStart st).1 hpend
  refine ⟨clientStartN_eq k st, hpend, ?_, ?_, ?_, ?_⟩
  · rw [hdel, hstart]
    simp [hr]
  · rw [hdel, hstart]
  · rw [hdel, hstart]
  · refine clientStart_of_some _ _ ?_
    rw [hdel, hstart]

/-- Witness for C4 at the concrete `cwState` and three total `start()`
calls. -/
theorem c4_client_start_idempotent_witness :
    (cwState.startPromise = none ∧ cwState.pendingStartTasks = []
        ∧ cwState.resolved = [])
      ∧ (clientStartN 2 cwState = clientStart cwState
          ∧ (clientStart cwState).2.pendingStartTasks = [(clientStart cwState).1]
          ∧ (deliverReadiness (clientStart cwState).2).resolved = [(clientStart cwState).1]
          ∧ (deliverReadiness (clientStart cwState).2).trace
              = cwState.trace ++ startEvents cwState.controllers
          ∧ (deliverReadiness (clientStart cwState).2).heartbeatConnections
              = cwState.heartbeatConnections ++ hbSubs cwState.controllers
          ∧ clientStart (deliverReadiness (clientStart cwState).2)
              = ((clientStart cwState).1, deliverReadiness (clientStart cwState).2)) :=
  ⟨⟨rfl, rfl, rfl⟩, c4_client_start_idempotent cwState 2 rfl rfl rfl⟩

theorem registerController_ok (st : ClientState) (c : ControllerConstructor)
    (h1 : st.startPromise = none) (h2 : mapGet st.controllers c.render = none) :
    registerController st c
      = .ok { st with
              controllers := mapSet st.controllers c.render c
              trace := st.trace ++ initEvent c } := by
  unfold registerController
  simp only [h1, Option.isSome_none, Bool.false_eq_true, if_false, h2]
  cases hc : c.hasInit <;> simp [initEvent, hc]

/-- C7: registration gating on both roles.  On the server: registering a
service after `start()` has been called fails with `InvalidState` (the
failure is raised before any mutation, so the registry is unchanged);
registering a duplicate `tostring` key fails with `DuplicateIdentifier`;
registering a fresh key before `start()` succeeds, stores the
constructed singleton, and emits its `onInit` immediately.  On the
client the same three facts hold with `startPromise` being set playing
the role of "start() has been called". -/
theorem c7_registration_gating (ss : ServerState) (c : ServiceConstructor)
    (cs : ClientState) (d : ControllerConstructor) :
    (ss.starting = true → registerService ss c = .error .invalidState)
      ∧ (ss.starting = false → (mapGet ss.services c.render).isSome →
          registerService ss c = .error .duplicateIdentifier)
      ∧ (ss.starting = false → mapGet ss.services c.render = none →
          registerService ss c
            = .ok { ss with
                    services := mapSet ss.services c.render c
                    trace := ss.trace ++ initEvent c })
      ∧ (cs.startPromise.isSome → registerController cs d = .error .invalidState)
      ∧ (cs.startPromise = none → (mapGet cs.controllers d.render).isSome →
          registerController cs d = .error .duplicateIdentifier)
      ∧ (cs.startPromise = none → mapGet cs.controllers d.render = none →
          registerController cs d
            = .ok { cs with
                    controllers := mapSet cs.controllers d.render d
                    trace := cs.trace ++ initEvent d }) := by
  refine ⟨?_, ?_, ?_, ?_, ?_, ?_⟩
  · intro h
    unfold registerService
    simp [h]
  · intro h1 h2
    unfold registerService
    simp [h1, h2]
  · intro h1 h2
    exact registerService_ok ss c h1 h2
  · intro h
    unfold registerController
    simp [h]
  · intro h1 h2
    unfold registerController
    simp [h1, h2]
  · intro h1 h2
    exact registerController_ok cs d h1 h2

/-- Witness for C7 at concrete server and client states: a started
server and client reject registration with `InvalidState`; a duplicate
key is rejected with `DuplicateIdentifier`; a fresh registration on a
fresh role succeeds, stores the singleton, and emits its init event. -/
theorem c7_registration_gating_witness :
    registerService ssStarted svcA = .error .invalidState
      ∧ registerService ssWithS svcS1 = .error .duplicateIdentifier
      ∧ registerService mkServerState svcA
          = .ok { services := [("A", svcA)]
                  starting := false
                  heartbeatConnections := []
                  folderPublished := false
                  startedMarker := false
                  trace := [LifecycleEvent.init "A"] }
      ∧ registerController csStarted svcA = .error .invalidState
      ∧ registerController csWithS svcS1 = .error .duplicateIdentifier
      ∧ registerController mkClientState svcA
          = .ok { controllers := [("A", svcA)]
                  startPromise := none
                  nextPromiseId := 0
                  pendingStartTasks := []
                  heartbeatConnections := []
                  resolved := []
                  trace := [LifecycleEvent.init "A"] } :=
  ⟨(c7_registration_gating ssStarted svcA csStarted svcA).1 rfl,
    (c7_registration_gating ssWithS svcS1 csWithS svcS1).2.1 rfl rfl,
    (c7_registration_gating mkServerState svcA mkClientState svcA).2.2.1 rfl rfl,
    (c7_registration_gating ssStarted svcA csStarted svcA).2.2.2.1 rfl,
    (c7_registration_gating ssWithS svcS1 csWithS svcS1).2.2.2.2.1 rfl rfl,
    (c7_registration_gating mkServerState svcA mkClientState svcA).2.2.2.2.2 rfl rfl⟩

/-- C9: service and controller singletons are keyed by the `tostring`
rendering of their constructor, not by constructor identity.  On the
server, for two distinct service constructors with equal renderings,
registering the second fails as a duplicate and `getService` on either
constructor returns the instance registered under that string key (the
one the first constructor built).  On the client the same holds for
`registerController` and `getController`. -/
theorem c9_singletons_keyed_by_tostring (ss : ServerState) (c1 c2 : ServiceConstructor)
    (cs : ClientState) (d1 d2 : ControllerConstructor)
    (hs0 : ss.starting = false) (hs1 : mapGet ss.services c1.render = none)
    (hs2 : c1.render = c2.render) (hs3 : c1 ≠ c2)
    (hc0 : cs.startPromise = none) (hc1 : mapGet cs.controllers d1.render = none)
    (hc2 : d1.render = d2.render) (hc3 : d1 ≠ d2) :
    (∃ st1, registerService ss c1 = .ok st1
        ∧ registerService st1 c2 = .error .duplicateIdentifier
        ∧ getService st1 c2 = .ok c1
        ∧ getService st1 c1 = .ok c1)
      ∧ (∃ ct1, registerController cs d1 = .ok ct1
          ∧ registerController ct1 d2 = .error .duplicateIdentifier
          ∧ getController ct1 d2 = .ok d1
          ∧ getController ct1 d1 = .ok d1) := by
  have hsdup : mapGet (mapSet ss.services c1.render c1) c2.render = some c1 := by
    rw [← hs2]
    exact mapGet_mapSet_self ss.services c1.render c1
  have hcdup : mapGet (mapSet cs.controllers d1.render d1) d2.render = some d1 := by
    rw [← hc2]
    exact mapGet_mapSet_self cs.controllers d1.render d1
  constructor
  · refine ⟨_, registerService_ok ss c1 hs0 hs1, ?_, ?_, ?_⟩
    · unfold registerService
      simp [hs0, hsdup]
    · unfold getService
      simp [hsdup]
    · unfold getService
      simp [mapGet_mapSet_self]
  · refine ⟨_, registerController_ok cs d1 hc0 hc1, ?_, ?_, ?_⟩
    · unfold registerController
      simp [hc0, hcdup]
    · unfold getController
      simp [hcdup]
    · unfold getController
      simp [mapGet_mapSet_self]

/-- Witness for C9: the two distinct constructors `svcS0` and `svcS1`
(`ctorId` 0 and 1) render to the same string `"S"`; they are used as
services on a fresh server and as controllers on a fresh client. -/
theorem c9_singletons_keyed_by_tostring_witness :
    (mkServerState.starting = false
      ∧ mapGet mkServerState.services svcS0.render = none
      ∧ svcS0.render = svcS1.render
      ∧ svcS0 ≠ svcS1
      ∧ mkClientState.startPromise = none
      ∧ mapGet mkClientState.controllers svcS0.render = none)
      ∧ ((∃ st1, registerService mkServerState svcS0 = .ok st1
            ∧ registerService st1 svcS1 = .error .duplicateIdentifier
            ∧ getService st1 svcS1 = .ok svcS0
            ∧ getService st1 svcS0 = .ok svcS0)
        ∧ (∃ ct1, registerController mkClientState svcS0 = .ok ct1
            ∧ registerController ct1 svcS1 = .error .duplicateIdentifier
            ∧ getController ct1 svcS1 = .ok svcS0
            ∧ getController ct1 svcS0 = .ok svcS0)) :=
  ⟨⟨rfl, rfl, rfl, by decide, rfl, rfl⟩,
    c9_singletons_keyed_by_tostring mkServerState svcS0 svcS1 mkClientState svcS0 svcS1
      rfl rfl rfl (by decide) rfl rfl rfl (by decide)⟩

end Crochet
